import Mathlib

/-!
Verification of the `prohyd/python` repository.

`Lab2` embeds `src/lab_2/main.py`: a tokenizer (`TOKEN_SPEC` / `TOKEN_RE` /
`tokenize`), a recursive-descent parser (`Parser`), and the lowering visitor
(`ToPython`) that builds a Python `ast` tree.

`Lab1` embeds the final-reduction step of `src/lab_1/script.py` (`Task` and
`GetAnwer`).

Machine-level conventions: Python strings become `String`/`List Char`;
generators become `List`; raised exceptions become `Except` errors; the
recursive-descent procedures take an explicit fuel argument so that every
definition is structurally recursive and computable (the Python originals
recurse on the token stream, which is finite; any fuel larger than the
number of recursive calls gives the Python behaviour).
-/

namespace Lab2

/-! ## Lexer: `TOKEN_SPEC`, `TOKEN_RE`, `tokenize` (main.py lines 4-42)

`TOKEN_RE` is an alternation of the `TOKEN_SPEC` patterns in declaration
order; Python `re` takes the first alternative that matches at the current
position, and `re.finditer` skips characters where no alternative matches.
Each pattern is embedded as a match-length function returning 0 when the
pattern does not match at the head of the remaining input. -/

/-- Python regex `\w` for the ASCII inputs handled here. -/
def isWordChar (c : Char) : Bool := c.isAlpha || c.isDigit || c == '_'

/-- A `\b` just before a word character: holds when the previous character
is absent (start of string) or is not a word character. -/
def boundaryBefore (prev : Option Char) : Bool :=
  match prev with
  | none => true
  | some c => !isWordChar c

/-- Match of `\bKW\b` at the head of `s` (every keyword starts and ends with
a word character, so both boundaries reduce to the neighbour checks). -/
def kwMatch (kw : List Char) (prev : Option Char) (s : List Char) : Bool :=
  boundaryBefore prev && s.take kw.length == kw &&
    (match s.drop kw.length with
     | [] => true
     | c :: _ => !isWordChar c)

/-- Match length of a keyword pattern (`0` = no match). -/
def kwLen (kw : String) (prev : Option Char) (s : List Char) : Nat :=
  if kwMatch kw.toList prev s then kw.length else 0

/-- Match length of a literal pattern such as `\+` or `:=`. -/
def litLen (lit : String) (s : List Char) : Nat :=
  if s.take lit.length == lit.toList then lit.length else 0

/-- Match length of `[A-Za-z_]\w*`. -/
def identLen : List Char → Nat
  | [] => 0
  | c :: rest =>
    if c.isAlpha || c == '_' then 1 + (rest.takeWhile isWordChar).length else 0

/-- Match length of `\d+`. -/
def numberLen (s : List Char) : Nat := (s.takeWhile Char.isDigit).length

/-- Match length of `[ \t\n]+`. -/
def skipLen (s : List Char) : Nat :=
  (s.takeWhile (fun c => c == ' ' || c == '\t' || c == '\n')).length

/-- `Token` from main.py lines 30-36: a kind (Python attribute `type`) and
the matched text (`value`). -/
structure Token where
  type : String
  value : String
  deriving DecidableEq, Repr

/-- One attempt of `TOKEN_RE` at the current position: the patterns of
`TOKEN_SPEC` in declaration order, first match wins (Python alternation). -/
def tryMatch (prev : Option Char) (s : List Char) : Option (String × Nat) :=
  let cands : List (String × Nat) :=
    [("FUNC", kwLen "func" prev s),
     ("RETURN", kwLen "return" prev s),
     ("IF", kwLen "if" prev s),
     ("ELSE", kwLen "else" prev s),
     ("FOR", kwLen "for" prev s),
     ("INT", kwLen "int" prev s),
     ("IDENT", identLen s),
     ("NUMBER", numberLen s),
     ("PLUS", litLen "+" s),
     ("MINUS", litLen "-" s),
     ("STAR", litLen "*" s),
     ("SLASH", litLen "/" s),
     ("EQ", litLen "=" s),
     ("COLON_EQ", litLen ":=" s),
     ("LPAREN", litLen "(" s),
     ("RPAREN", litLen ")" s),
     ("LBRACE", litLen "\x7b" s),
     ("RBRACE", litLen "\x7d" s),
     ("COMMA", litLen "," s),
     ("SKIP", skipLen s)]
  cands.find? (fun p => p.2 != 0)

/-- The `re.finditer` scan of `tokenize` (main.py lines 39-42): at each
position, if some pattern matches, emit the token (unless it is `SKIP`) and
continue after the match; otherwise move one character forward without
emitting anything.  `prev` is the character before the current position
(for the `\b` boundaries). -/
def tokenizeAux : Nat → Option Char → List Char → List Token
  | 0, _, _ => []
  | _ + 1, _, [] => []
  | fuel + 1, prev, c :: rest =>
    match tryMatch prev (c :: rest) with
    | none => tokenizeAux fuel (some c) rest
    | some (kind, n) =>
      let text := (c :: rest).take n
      let toks := if kind == "SKIP" then [] else [Token.mk kind (String.mk text)]
      toks ++ tokenizeAux fuel text.getLast? ((c :: rest).drop n)

/-- `tokenize` (main.py lines 39-42).  Every scan step consumes at least one
character, so `code.length + 1` fuel never runs out. -/
def tokenize (code : String) : List Token :=
  tokenizeAux (code.length + 1) none code.toList

/-! ## AST (main.py lines 44-89)

The `Node` subclasses.  The parser only ever builds `Var`/`Num`/`Call`/
`BinaryOp` in expression positions and `Return`/`Assign`/`If`/`For` in
statement positions, so the dynamic class hierarchy is embedded as the two
inductives below plus the `Function` root. -/

inductive Expr where
  | BinaryOp (left : Expr) (op : String) (right : Expr)
  | Call (name : String) (args : List Expr)
  | Var (name : String)
  | Num (value : Int)
  deriving Repr

inductive Stmt where
  | Return (value : Expr)
  | Assign (name : String) (value : Expr)
  | If (cond : Expr) (then_ : List Stmt) (otherwise : Option (List Stmt))
  | For (cond : Expr) (body : List Stmt)
  deriving Repr

structure Function where
  name : String
  params : List String
  body : List Stmt
  deriving Repr

/-! ## Parser (main.py lines 91-193)

`Parser` keeps `self.tokens` (a list) and `self.pos`.  `self.cur()` indexes
the list and raises `IndexError` past the end; `eat` raises
`SyntaxError(f"Expected {typ}, got {cur}")` on a kind mismatch;
`parse_term` and `parse_stmt` raise `SyntaxError(tok)` with only the
offending token.  These exceptions become the `PErr` constructors below;
`PErr.fuel` is the embedding artifact for exhausted fuel and is never hit
at sufficient fuel. -/

structure PState where
  tokens : List Token
  pos : Nat
  deriving DecidableEq, Repr

inductive PErr where
  /-- `SyntaxError(f"Expected {typ}, got {cur}")` raised by `eat`. -/
  | expected (typ : String) (got : Token)
  /-- `SyntaxError(tok)` raised by `parse_term` / `parse_stmt`. -/
  | unexpected (got : Token)
  /-- `ValueError` raised by `int(...)` on a non-numeric token text. -/
  | valueError (val : String)
  /-- `IndexError` raised by `self.cur()` past the end of the stream. -/
  | indexError
  /-- Out of fuel (embedding artifact only). -/
  | fuel
  deriving DecidableEq, Repr

/-- `self.cur()` (main.py lines 96-97): `self.tokens[self.pos]`. -/
def cur (s : PState) : Option Token := s.tokens.get? s.pos

/-- `self.pos += 1`. -/
def advance (s : PState) : PState := ⟨s.tokens, s.pos + 1⟩

/-- `eat` (main.py lines 99-103). -/
def eat (s : PState) (typ : String) : Except PErr PState :=
  match cur s with
  | none => .error .indexError
  | some t => if t.type = typ then .ok (advance s) else .error (.expected typ t)

/-- Python `int(text)` as used on token texts: succeeds exactly on nonempty
all-digit strings (what the `NUMBER` pattern `\d+` produces), `ValueError`
otherwise. -/
def pyInt (text : String) : Option Int :=
  let cs := text.toList
  if cs.isEmpty then none
  else if cs.all Char.isDigit then
    some (Int.ofNat (cs.foldl (fun acc c => acc * 10 + (c.toNat - '0'.toNat)) 0))
  else none

mutual

/-- `parse_expr` (main.py lines 105-111): a `parse_term` followed by the
left-associative `+`/`-` loop. -/
def parseExpr : Nat → PState → Except PErr (Expr × PState)
  | 0, _ => .error .fuel
  | fuel + 1, s =>
    match parseTerm fuel s with
    | .error e => .error e
    | .ok (node, s1) => parseExprLoop fuel node s1

/-- The `while self.cur().type in ("PLUS", "MINUS")` loop of `parse_expr`;
checking the loop condition calls `self.cur()` and can raise `IndexError`. -/
def parseExprLoop : Nat → Expr → PState → Except PErr (Expr × PState)
  | 0, _, _ => .error .fuel
  | fuel + 1, node, s =>
    match cur s with
    | none => .error .indexError
    | some t =>
      if t.type = "PLUS" || t.type = "MINUS" then
        match parseTerm fuel (advance s) with
        | .error e => .error e
        | .ok (rhs, s1) => parseExprLoop fuel (.BinaryOp node t.value rhs) s1
      else .ok (node, s)

/-- `parse_term` (main.py lines 113-131): number, call, or variable;
any other token raises `SyntaxError(tok)`. -/
def parseTerm : Nat → PState → Except PErr (Expr × PState)
  | 0, _ => .error .fuel
  | fuel + 1, s =>
    match cur s with
    | none => .error .indexError
    | some tok =>
      if tok.type = "NUMBER" then
        match pyInt tok.value with
        | some n => .ok (.Num n, advance s)
        | none => .error (.valueError tok.value)
      else if tok.type = "IDENT" then
        let s1 := advance s
        match cur s1 with
        | none => .error .indexError
        | some t2 =>
          if t2.type = "LPAREN" then
            let s2 := advance s1
            match cur s2 with
            | none => .error .indexError
            | some t3 =>
              if t3.type != "RPAREN" then
                match parseExpr fuel s2 with
                | .error e => .error e
                | .ok (a, s3) =>
                  match parseArgsLoop fuel s3 with
                  | .error e => .error e
                  | .ok (rest, s4) =>
                    match eat s4 "RPAREN" with
                    | .error e => .error e
                    | .ok s5 => .ok (.Call tok.value (a :: rest), s5)
              else .ok (.Call tok.value [], advance s2)
          else .ok (.Var tok.value, s1)
      else .error (.unexpected tok)

/-- The `while self.cur().type == "COMMA"` argument loop of `parse_term`. -/
def parseArgsLoop : Nat → PState → Except PErr (List Expr × PState)
  | 0, _ => .error .fuel
  | fuel + 1, s =>
    match cur s with
    | none => .error .indexError
    | some t =>
      if t.type = "COMMA" then
        match parseExpr fuel (advance s) with
        | .error e => .error e
        | .ok (a, s1) =>
          match parseArgsLoop fuel s1 with
          | .error e => .error e
          | .ok (rest, s2) => .ok (a :: rest, s2)
      else .ok ([], s)

/-- `parse_stmt` (main.py lines 133-166): dispatch on the current token. -/
def parseStmt : Nat → PState → Except PErr (Stmt × PState)
  | 0, _ => .error .fuel
  | fuel + 1, s =>
    match cur s with
    | none => .error .indexError
    | some t =>
      if t.type = "RETURN" then
        match eat s "RETURN" with
        | .error e => .error e
        | .ok s1 =>
          match parseExpr fuel s1 with
          | .error e => .error e
          | .ok (v, s2) => .ok (.Return v, s2)
      else if t.type = "IF" then
        match eat s "IF" with
        | .error e => .error e
        | .ok s1 =>
          match parseExpr fuel s1 with
          | .error e => .error e
          | .ok (c, s2) =>
            match eat s2 "LBRACE" with
            | .error e => .error e
            | .ok s3 =>
              match parseBlock fuel s3 with
              | .error e => .error e
              | .ok (thn, s4) =>
                match eat s4 "RBRACE" with
                | .error e => .error e
                | .ok s5 =>
                  match cur s5 with
                  | none => .error .indexError
                  | some t2 =>
                    if t2.type = "ELSE" then
                      match eat (advance s5) "LBRACE" with
                      | .error e => .error e
                      | .ok s6 =>
                        match parseBlock fuel s6 with
                        | .error e => .error e
                        | .ok (oth, s7) =>
                          match eat s7 "RBRACE" with
                          | .error e => .error e
                          | .ok s8 => .ok (.If c thn (some oth), s8)
                    else .ok (.If c thn none, s5)
      else if t.type = "FOR" then
        match eat s "FOR" with
        | .error e => .error e
        | .ok s1 =>
          match parseExpr fuel s1 with
          | .error e => .error e
          | .ok (c, s2) =>
            match eat s2 "LBRACE" with
            | .error e => .error e
            | .ok s3 =>
              match parseBlock fuel s3 with
              | .error e => .error e
              | .ok (body, s4) =>
                match eat s4 "RBRACE" with
                | .error e => .error e
                | .ok s5 => .ok (.For c body, s5)
      else if t.type = "IDENT" then
        match eat s "IDENT" with
        | .error e => .error e
        | .ok s1 =>
          match eat s1 "EQ" with
          | .error e => .error e
          | .ok s2 =>
            match parseExpr fuel s2 with
            | .error e => .error e
            | .ok (v, s3) => .ok (.Assign t.value v, s3)
      else .error (.unexpected t)

/-- `parse_block` (main.py lines 168-172): statements until `}` (the `}` is
looked at but not consumed; checking it can raise `IndexError`). -/
def parseBlock : Nat → PState → Except PErr (List Stmt × PState)
  | 0, _ => .error .fuel
  | fuel + 1, s =>
    match cur s with
    | none => .error .indexError
    | some t =>
      if t.type != "RBRACE" then
        match parseStmt fuel s with
        | .error e => .error e
        | .ok (st, s1) =>
          match parseBlock fuel s1 with
          | .error e => .error e
          | .ok (rest, s2) => .ok (st :: rest, s2)
      else .ok ([], s)

end

/-- The parameter loop of `parse_func` (main.py lines 179-186):
`while self.cur().type != "RPAREN"`: append `self.cur().value`, `eat IDENT`,
optionally eat an `INT` annotation, optionally eat a `COMMA`.  Each of the
two option checks calls `self.cur()` and can raise `IndexError`. -/
def parseParams : Nat → PState → Except PErr (List String × PState)
  | 0, _ => .error .fuel
  | fuel + 1, s =>
    match cur s with
    | none => .error .indexError
    | some t =>
      if t.type != "RPAREN" then
        match eat s "IDENT" with
        | .error e => .error e
        | .ok s1 =>
          match cur s1 with
          | none => .error .indexError
          | some t1 =>
            let s2 := if t1.type = "INT" then advance s1 else s1
            match cur s2 with
            | none => .error .indexError
            | some t2 =>
              let s3 := if t2.type = "COMMA" then advance s2 else s2
              match parseParams fuel s3 with
              | .error e => .error e
              | .ok (rest, s4) => .ok (t.value :: rest, s4)
      else .ok ([], s)

/-- `parse_func` (main.py lines 174-193): `func IDENT ( params ) [int]
{ block }`; the function name is read from `self.cur().value` before the
`IDENT` is eaten, and the optional result-type `int` is discarded. -/
def parseFunc : Nat → PState → Except PErr (Function × PState)
  | 0, _ => .error .fuel
  | fuel + 1, s =>
    match eat s "FUNC" with
    | .error e => .error e
    | .ok s1 =>
      match cur s1 with
      | none => .error .indexError
      | some nameTok =>
        match eat s1 "IDENT" with
        | .error e => .error e
        | .ok s2 =>
          match eat s2 "LPAREN" with
          | .error e => .error e
          | .ok s3 =>
            match parseParams fuel s3 with
            | .error e => .error e
            | .ok (params, s4) =>
              match eat s4 "RPAREN" with
              | .error e => .error e
              | .ok s5 =>
                match cur s5 with
                | none => .error .indexError
                | some t =>
                  let s6 := if t.type = "INT" then advance s5 else s5
                  match eat s6 "LBRACE" with
                  | .error e => .error e
                  | .ok s7 =>
                    match parseBlock fuel s7 with
                    | .error e => .error e
                    | .ok (body, s8) =>
                      match eat s8 "RBRACE" with
                      | .error e => .error e
                      | .ok s9 => .ok (⟨nameTok.value, params, body⟩, s9)

/-! ## Target trees: the Python `ast` nodes built by `ToPython`
(main.py lines 195-236)

The emitter builds nodes of the CPython `ast` module.  `Py` is the untyped
tree of those nodes (the `ast` module itself enforces no stmt/expr typing at
construction time, exactly like the Python code).  `ast.arg(p)` carries an
optional type `ann`otation, defaulted to `None`; `ast.arguments` with its
always-empty posonly/kwonly/defaults lists is collapsed to the plain `args`
list, and the always-empty `decorator_list` of `FunctionDef` is omitted.
`ast.For` is never built by the emitter but exists in the target language;
it is included so that "never lowers to a counted for loop" is expressible. -/

inductive PyOp where
  | Add
  | Sub
  | Mult
  | Div
  deriving DecidableEq, Repr

inductive Ctx where
  | Load
  | Store
  deriving DecidableEq, Repr

inductive Py where
  | FunctionDef (name : String) (args : List (String × Option Py)) (body : List Py)
  | Return (value : Py)
  | Assign (targets : List Py) (value : Py)
  | If (test : Py) (body : List Py) (orelse : List Py)
  | While (test : Py) (body : List Py) (orelse : List Py)
  | For (target : Py) (iter : Py) (body : List Py) (orelse : List Py)
  | ExprStmt (value : Py)
  | Call (func : Py) (args : List Py)
  | Name (id : String) (ctx : Ctx)
  | BinOp (left : Py) (op : PyOp) (right : Py)
  | Constant (value : Int)
  deriving Repr

/-- In the CPython `ast` grammar these constructors are `expr` nodes;
everything else (`FunctionDef`, `Return`, `Assign`, `If`, `While`, `For`,
and the expression-statement wrapper `Expr`, here `ExprStmt`) is a `stmt`. -/
def isExprNode : Py → Bool
  | .Call _ _ => true
  | .Name _ _ => true
  | .BinOp _ _ _ => true
  | .Constant _ => true
  | _ => false

mutual

/-- `p` is a well-formed `expr` tree of the CPython `ast` grammar (fueled). -/
def wfExpr : Nat → Py → Bool
  | 0, _ => false
  | fuel + 1, p =>
    match p with
    | .BinOp l _ r => wfExpr fuel l && wfExpr fuel r
    | .Call f args => wfExpr fuel f && wfExprs fuel args
    | .Name _ _ => true
    | .Constant _ => true
    | _ => false

def wfExprs : Nat → List Py → Bool
  | 0, _ => false
  | _ + 1, [] => true
  | fuel + 1, p :: ps => wfExpr fuel p && wfExprs fuel ps

/-- `p` is a well-formed `stmt` tree of the CPython `ast` grammar (fueled). -/
def wfStmt : Nat → Py → Bool
  | 0, _ => false
  | fuel + 1, p =>
    match p with
    | .FunctionDef _ _ body => wfStmts fuel body
    | .Return v => wfExpr fuel v
    | .Assign tgts v => wfExprs fuel tgts && wfExpr fuel v
    | .If c b e => wfExpr fuel c && wfStmts fuel b && wfStmts fuel e
    | .While c b e => wfExpr fuel c && wfStmts fuel b && wfStmts fuel e
    | .For t i b e => wfExpr fuel t && wfExpr fuel i && wfStmts fuel b && wfStmts fuel e
    | .ExprStmt v => wfExpr fuel v
    | _ => false

def wfStmts : Nat → List Py → Bool
  | 0, _ => false
  | _ + 1, [] => true
  | fuel + 1, p :: ps => wfStmt fuel p && wfStmts fuel ps

end

/-! ## Emitter: `ToPython` (main.py lines 195-236)

`visit` dispatches on the node's class; the only runtime failure is the
dictionary lookup `ops[n.op]` in `visit_BinaryOp`, which raises `KeyError`
for an operator outside `{+,-,*,/}`. -/

inductive LowErr where
  /-- `KeyError` from `ops[n.op]` in `visit_BinaryOp`. -/
  | keyError (op : String)
  /-- Out of fuel (embedding artifact only). -/
  | fuel
  deriving DecidableEq, Repr

/-- The dictionary `ops = {"+": ast.Add(), "-": ast.Sub(), "*": ast.Mult(),
"/": ast.Div()}` of `visit_BinaryOp` (main.py line 229). -/
def opsMap (op : String) : Option PyOp :=
  if op = "+" then some .Add
  else if op = "-" then some .Sub
  else if op = "*" then some .Mult
  else if op = "/" then some .Div
  else none

mutual

/-- `visit` on expression nodes: `visit_BinaryOp`, `visit_Call`,
`visit_Var`, `visit_Num` (main.py lines 224-236).  Note that `visit_Call`
always wraps the built `ast.Call` in the statement node `ast.Expr`
(here `Py.ExprStmt`), whatever position the `Call` occurred in. -/
def visitExpr : Nat → Expr → Except LowErr Py
  | 0, _ => .error .fuel
  | fuel + 1, e =>
    match e with
    | .BinaryOp l op r =>
      match visitExpr fuel l with
      | .error e => .error e
      | .ok pl =>
        match opsMap op with
        | none => .error (.keyError op)
        | some o =>
          match visitExpr fuel r with
          | .error e => .error e
          | .ok pr => .ok (.BinOp pl o pr)
    | .Call name args =>
      match visitExprs fuel args with
      | .error e => .error e
      | .ok pargs => .ok (.ExprStmt (.Call (.Name name .Load) pargs))
    | .Var name => .ok (.Name name .Load)
    | .Num v => .ok (.Constant v)

def visitExprs : Nat → List Expr → Except LowErr (List Py)
  | 0, _ => .error .fuel
  | _ + 1, [] => .ok []
  | fuel + 1, e :: es =>
    match visitExpr fuel e with
    | .error err => .error err
    | .ok p =>
      match visitExprs fuel es with
      | .error err => .error err
      | .ok ps => .ok (p :: ps)

/-- `visit` on statement nodes: `visit_Return`, `visit_Assign`, `visit_If`,
`visit_For` (main.py lines 208-222).  In `visit_If` the alternate body is
`[self.visit(s) for s in n.otherwise] if n.otherwise else []`: both `None`
and the empty list are falsy, so both give an empty `orelse`.  `visit_For`
builds `ast.While(cond, body, [])`. -/
def visitStmt : Nat → Stmt → Except LowErr Py
  | 0, _ => .error .fuel
  | fuel + 1, st =>
    match st with
    | .Return v =>
      match visitExpr fuel v with
      | .error e => .error e
      | .ok pv => .ok (.Return pv)
    | .Assign n v =>
      match visitExpr fuel v with
      | .error e => .error e
      | .ok pv => .ok (.Assign [.Name n .Store] pv)
    | .If c thn oth =>
      match visitExpr fuel c with
      | .error e => .error e
      | .ok pc =>
        match visitStmts fuel thn with
        | .error e => .error e
        | .ok pt =>
          match (match oth with
                 | some l => if l.isEmpty then Except.ok [] else visitStmts fuel l
                 | none => Except.ok [] : Except LowErr (List Py)) with
          | .error e => .error e
          | .ok po => .ok (.If pc pt po)
    | .For c body =>
      match visitExpr fuel c with
      | .error e => .error e
      | .ok pc =>
        match visitStmts fuel body with
        | .error e => .error e
        | .ok pb => .ok (.While pc pb [])

def visitStmts : Nat → List Stmt → Except LowErr (List Py)
  | 0, _ => .error .fuel
  | _ + 1, [] => .ok []
  | fuel + 1, st :: rest =>
    match visitStmt fuel st with
    | .error err => .error err
    | .ok p =>
      match visitStmts fuel rest with
      | .error err => .error err
      | .ok ps => .ok (p :: ps)

end

/-- `visit_Function` (main.py lines 199-206): a `FunctionDef` whose
arguments are `ast.arg(p)` for each parameter (so every argument carries a
`None` type annotation) and whose body is the visited statement list. -/
def visitFunc (fuel : Nat) (f : Function) : Except LowErr Py :=
  match visitStmts fuel f.body with
  | .error e => .error e
  | .ok pbody => .ok (.FunctionDef f.name (f.params.map (fun p => (p, none))) pbody)

end Lab2

namespace Lab1

/-! ## `src/lab_1/script.py`: `Task` and `GetAnwer`

A data table is a list of `(syml, value)` rows and a summary table a list of
`(syml, median, std)` rows, in row order (pandas `loc[len(table)] = ...`
appends).  The numeric aggregations `np.median` and `np.std` act on IEEE
doubles; they are abstracted as parameters `npmedian npstd : List ℚ → ℚ`
over exact rationals, since every claim about this script concerns which
rows and which column feed them, not their float arithmetic.  `pd.read_csv`
and the thread pool are outside the embedded fragment: `Task` receives the
file's rows directly, and `main`'s `ex.map(Task, files)` is an
order-preserving map. -/

/-- A row of a generated `dataN.csv`: columns `syml`, `value`. -/
abbrev DataRow : Type := String × ℚ

/-- A row of a per-file summary: columns `syml`, `median`, `std`. -/
abbrev SumRow : Type := String × ℚ × ℚ

/-- The symbol list `['A','B','C','D']` iterated by both functions. -/
def syms : List String := ["A", "B", "C", "D"]

/-- `Task` (script.py lines 16-26): for each symbol, one summary row holding
the median and std of that symbol's `value` column. -/
def Task (npmedian npstd : List ℚ → ℚ) (table : List DataRow) : List SumRow :=
  syms.map fun i =>
    let vals := (table.filter (fun r => r.1 == i)).map (fun r => r.2)
    (i, npmedian vals, npstd vals)

/-- `GetAnwer` (script.py lines 28-38): concatenate the five per-file
summaries (`pd.concat([arr[0],...,arr[4]])`), then for each symbol take the
median and std of the concatenated table's `median` column. -/
def GetAnwer (npmedian npstd : List ℚ → ℚ)
    (a0 a1 a2 a3 a4 : List SumRow) : List SumRow :=
  let table := a0 ++ a1 ++ a2 ++ a3 ++ a4
  syms.map fun i =>
    let meds := (table.filter (fun r => r.1 == i)).map (fun r => r.2.1)
    (i, npmedian meds, npstd meds)

/-- The per-file median of the raw `value` data of symbol `i`, i.e. the
`median` entry `Task` computes for `i`. -/
def fileMedian (npmedian : List ℚ → ℚ) (table : List DataRow) (i : String) : ℚ :=
  npmedian ((table.filter (fun r => r.1 == i)).map (fun r => r.2))

end Lab1

/-! ## Concrete programs used by the claims -/

/-- The repository's own example program (main.py lines 239-247), written on
one line; the token sequence is identical to the indented original since the
lexer discards `[ \t\n]+`. -/
def addSrc : String :=
  "func add(a int, b int) int \x7b if a \x7b return a + b \x7d else \x7b return b \x7d \x7d"

/-- The AST the example program must parse to. -/
def addFunc : Lab2.Function :=
  ⟨"add", ["a", "b"],
    [.If (.Var "a") [.Return (.BinaryOp (.Var "a") "+" (.Var "b"))]
      (some [.Return (.Var "b")])]⟩

/-- The target tree the example program must lower to: `add(a, b)` with
annotation-free parameters, body `if a: return a + b else: return b`. -/
def addPy : Lab2.Py :=
  .FunctionDef "add" [("a", none), ("b", none)]
    [.If (.Name "a" .Load)
      [.Return (.BinOp (.Name "a" .Load) .Add (.Name "b" .Load))]
      [.Return (.Name "b" .Load)]]

/-- A valid program of the supported grammar whose `return` expression has a
`Call` in `BinaryOp` operand position. -/
def gSrc : String := "func g() \x7b return f() + 1 \x7d"

/-- The AST of `gSrc`. -/
def gFunc : Lab2.Function :=
  ⟨"g", [], [.Return (.BinaryOp (.Call "f" []) "+" (.Num 1))]⟩

/-- What `ToPython` produces for `gFunc`: the statement node `ast.Expr`
(here `ExprStmt`) sits in the left operand of the `BinOp`. -/
def gPy : Lab2.Py :=
  .FunctionDef "g" []
    [.Return (.BinOp (.ExprStmt (.Call (.Name "f" .Load) [])) .Add (.Constant 1))]

/-- A function header whose parameter pairs are not separated by commas. -/
def ncSrc : String := "func f(a int b int) \x7b \x7d"

/-- The token encoding of a parameter list: one entry `(name, ann, com)` per
parameter, where `ann` says whether the optional `int` annotation is present
and `com` whether the optional `,` follows the pair.  All four combinations
are legal input shapes for the loop of `parse_func`. -/
def paramEnc (ps : List (String × Bool × Bool)) : List Lab2.Token :=
  ps.flatMap fun p =>
    Lab2.Token.mk "IDENT" p.1 ::
      ((if p.2.1 then [Lab2.Token.mk "INT" "int"] else []) ++
       (if p.2.2 then [Lab2.Token.mk "COMMA" ","] else []))

/-- Tokens of the statement `if a { }` followed by the block-closing `}` the
enclosing `parse_block` will look at. -/
def ifToks : List Lab2.Token :=
  [⟨"IF", "if"⟩, ⟨"IDENT", "a"⟩, ⟨"LBRACE", "\x7b"⟩, ⟨"RBRACE", "\x7d"⟩,
   ⟨"RBRACE", "\x7d"⟩]

/-- Tokens of the statement `if a { } else { }` followed by a closing `}`. -/
def elseToks : List Lab2.Token :=
  [⟨"IF", "if"⟩, ⟨"IDENT", "a"⟩, ⟨"LBRACE", "\x7b"⟩, ⟨"RBRACE", "\x7d"⟩,
   ⟨"ELSE", "else"⟩, ⟨"LBRACE", "\x7b"⟩, ⟨"RBRACE", "\x7d"⟩,
   ⟨"RBRACE", "\x7d"⟩]

/-! ## Helper lemmas about the lexer -/

namespace Lab2

/-- A successful `TOKEN_RE` match has positive length (every `TOKEN_SPEC`
pattern matches at least one character). -/
theorem tryMatch_ne_zero {prev : Option Char} {s : List Char} {k : String} {n : Nat}
    (h : tryMatch prev s = some (k, n)) : n ≠ 0 := by
  simp only [tryMatch] at h
  have hp := List.find?_some h
  simpa using hp

/-- The scan never produces more tokens than there are characters. -/
theorem tokenizeAux_length_le :
    ∀ (fuel : Nat) (prev : Option Char) (s : List Char),
      (tokenizeAux fuel prev s).length ≤ s.length := by
  intro fuel
  induction fuel with
  | zero => intro prev s; simp [tokenizeAux]
  | succ fuel ih =>
    intro prev s
    cases s with
    | nil => simp [tokenizeAux]
    | cons c rest =>
      cases h : tryMatch prev (c :: rest) with
      | none =>
        have := ih (some c) rest
        simp only [tokenizeAux, h]
        calc (tokenizeAux fuel (some c) rest).length ≤ rest.length := this
          _ ≤ (c :: rest).length := by simp
      | some kn =>
        obtain ⟨k, n⟩ := kn
        have hn : n ≠ 0 := tryMatch_ne_zero h
        have hrec := ih ((c :: rest).take n).getLast? ((c :: rest).drop n)
        have hdrop : ((c :: rest).drop n).length = (c :: rest).length - n :=
          List.length_drop n (c :: rest)
        simp only [tokenizeAux, h, List.length_append]
        rw [hdrop] at hrec
        simp only [List.length_cons] at hrec ⊢
        split
        · simpa using Nat.le_trans hrec (by omega)
        · simp only [List.length_cons, List.length_nil]
          omega

/-- A position where no pattern matches is skipped: it contributes no token
and the scan resumes at the next character. -/
theorem tokenizeAux_skip (fuel : Nat) (prev : Option Char) (c : Char)
    (rest : List Char) (h : tryMatch prev (c :: rest) = none) :
    tokenizeAux (fuel + 1) prev (c :: rest) = tokenizeAux fuel (some c) rest := by
  simp [tokenizeAux, h]

/-- No `TOKEN_SPEC` pattern matches at an `@`, whatever precedes/follows. -/
theorem tryMatch_atSign (prev : Option Char) (rest : List Char) :
    tryMatch prev ('@' :: rest) = none := by
  simp [tryMatch, kwLen, kwMatch, litLen, identLen, numberLen, skipLen,
    boundaryBefore, List.find?,
    show "+".length = 1 from rfl, show "-".length = 1 from rfl,
    show "*".length = 1 from rfl, show "/".length = 1 from rfl,
    show "=".length = 1 from rfl, show ":=".length = 2 from rfl,
    show "(".length = 1 from rfl, show ")".length = 1 from rfl,
    show "\x7b".length = 1 from rfl, show "\x7d".length = 1 from rfl,
    show ",".length = 1 from rfl]

/-- No `TOKEN_SPEC` pattern matches at a `:` that is not followed by `=`. -/
theorem tryMatch_colonNoEq (prev : Option Char) (c : Char) (rest : List Char)
    (h : c ≠ '=') : tryMatch prev (':' :: c :: rest) = none := by
  simp [tryMatch, kwLen, kwMatch, litLen, identLen, numberLen, skipLen,
    boundaryBefore, List.find?, h,
    show "+".length = 1 from rfl, show "-".length = 1 from rfl,
    show "*".length = 1 from rfl, show "/".length = 1 from rfl,
    show "=".length = 1 from rfl, show ":=".length = 2 from rfl,
    show "(".length = 1 from rfl, show ")".length = 1 from rfl,
    show "\x7b".length = 1 from rfl, show "\x7d".length = 1 from rfl,
    show ",".length = 1 from rfl]

end Lab2

/-! ## Claims -/

/-- C1: tokenizing then parsing the repository's own example source
`func add(a int, b int) int { if a { return a + b } else { return b } }`
produces exactly `Function(name="add", params=["a","b"],
body=[If(cond=Var("a"), then=[Return(BinaryOp(Var("a"),"+",Var("b")))],
otherwise=[Return(Var("b"))])])`, and lowering that AST produces the target
function `add(a, b)` with annotation-free parameters whose body is the
conditional `if a: return a + b else: return b`. -/
theorem claim_C1 :
    Lab2.parseFunc 100 ⟨Lab2.tokenize addSrc, 0⟩
      = .ok (addFunc, ⟨Lab2.tokenize addSrc, 25⟩) ∧
    Lab2.visitFunc 100 addFunc = .ok addPy :=
  ⟨rfl, rfl⟩

/-- C2 counterexample: on inputs with a position where no token pattern
matches (`:` followed by a non-`=`, or `@`), `tokenize` does not fail — it
silently produces the token sequence of the remaining matches. -/
theorem claim_C2_cex :
    Lab2.tokenize ":x" = [⟨"IDENT", "x"⟩] ∧
    Lab2.tokenize "a@b" = [⟨"IDENT", "a"⟩, ⟨"IDENT", "b"⟩] :=
  ⟨rfl, rfl⟩

/-- C2 (amended): when no token pattern matches at the current position —
in particular at an `@`, or at a `:` not followed by `=` — `tokenize` does
not raise any error: the scan skips that character, emitting no token for
it, and continues with the rest of the input. -/
theorem claim_C2_thm :
    (∀ prev rest, Lab2.tryMatch prev ('@' :: rest) = none) ∧
    (∀ prev c rest, c ≠ '=' → Lab2.tryMatch prev (':' :: c :: rest) = none) ∧
    (∀ fuel prev c rest, Lab2.tryMatch prev (c :: rest) = none →
      Lab2.tokenizeAux (fuel + 1) prev (c :: rest) = Lab2.tokenizeAux fuel (some c) rest) ∧
    (∀ fuel prev rest, Lab2.tokenizeAux (fuel + 1) prev ('@' :: rest)
        = Lab2.tokenizeAux fuel (some '@') rest) ∧
    (∀ fuel prev c rest, c ≠ '=' → Lab2.tokenizeAux (fuel + 1) prev (':' :: c :: rest)
        = Lab2.tokenizeAux fuel (some ':') (c :: rest)) :=
  ⟨Lab2.tryMatch_atSign, Lab2.tryMatch_colonNoEq, Lab2.tokenizeAux_skip,
   fun fuel prev rest =>
     Lab2.tokenizeAux_skip fuel prev '@' rest (Lab2.tryMatch_atSign prev rest),
   fun fuel prev c rest h =>
     Lab2.tokenizeAux_skip fuel prev ':' (c :: rest) (Lab2.tryMatch_colonNoEq prev c rest h)⟩

/-- C2 witness: the amended statement at concrete inputs. -/
theorem claim_C2_witness :
    Lab2.tryMatch none ['@'] = none ∧
    Lab2.tryMatch none [':', 'x'] = none ∧
    Lab2.tokenizeAux 3 none ['@', 'x'] = Lab2.tokenizeAux 2 (some '@') ['x'] ∧
    Lab2.tokenizeAux 2 none ['@', 'y'] = Lab2.tokenizeAux 1 (some '@') ['y'] ∧
    Lab2.tokenizeAux 2 none [':', 'x'] = Lab2.tokenizeAux 1 (some ':') ['x'] :=
  ⟨claim_C2_thm.1 none [], claim_C2_thm.2.1 none 'x' [] (by decide),
   claim_C2_thm.2.2.1 2 none '@' ['x'] (claim_C2_thm.1 none ['x']),
   claim_C2_thm.2.2.2.1 1 none ['y'],
   claim_C2_thm.2.2.2.2 1 none 'x' [] (by decide)⟩

/-- C3: lowering a `BinaryOp` whose operand is a `Call` puts the
statement-level node `ast.Expr` (the wrapper `visit_Call` always builds)
into the operand position, so the produced target tree is *not* a
structurally well-formed expression tree; the same happens through the full
pipeline on the valid source `func g() { return f() + 1 }`. -/
theorem claim_C3 :
    Lab2.visitExpr 100 (.BinaryOp (.Call "f" []) "+" (.Num 1))
      = .ok (.BinOp (.ExprStmt (.Call (.Name "f" .Load) [])) .Add (.Constant 1)) ∧
    Lab2.isExprNode (.ExprStmt (.Call (.Name "f" .Load) [])) = false ∧
    Lab2.wfExpr 100 (.BinOp (.ExprStmt (.Call (.Name "f" .Load) [])) .Add (.Constant 1)) = false ∧
    Lab2.parseFunc 100 ⟨Lab2.tokenize gSrc, 0⟩ = .ok (gFunc, ⟨Lab2.tokenize gSrc, 12⟩) ∧
    Lab2.visitFunc 100 gFunc = .ok gPy ∧
    Lab2.wfStmt 100 gPy = false :=
  ⟨rfl, rfl, rfl, rfl, rfl, rfl⟩

/-- C5: whenever lowering a `For` node succeeds, the result is a target
`While` loop `While(cond, body, [])` — condition plus body, no loop-variable
management — and in particular never the target's counted `For` construct. -/
theorem claim_C5 :
    ∀ (fuel : Nat) (c : Lab2.Expr) (b : List Lab2.Stmt) (r : Lab2.Py),
      Lab2.visitStmt (fuel + 1) (.For c b) = .ok r →
      ∃ pc pb, Lab2.visitExpr fuel c = .ok pc ∧ Lab2.visitStmts fuel b = .ok pb ∧
        r = .While pc pb [] ∧
        ∀ tgt iter body orelse, r ≠ .For tgt iter body orelse := by
  intro fuel c b r h
  cases hc : Lab2.visitExpr fuel c with
  | error e => simp [Lab2.visitStmt, hc] at h
  | ok pc =>
    cases hb : Lab2.visitStmts fuel b with
    | error e => simp [Lab2.visitStmt, hc, hb] at h
    | ok pb =>
      simp only [Lab2.visitStmt, hc, hb] at h
      cases h
      exact ⟨pc, pb, rfl, rfl, rfl, fun _ _ _ _ h => Lab2.Py.noConfusion h⟩

/-- C5 witness: the statement instantiated at `For(Var "x", [])`. -/
theorem claim_C5_witness :
    ∃ pc pb, Lab2.visitExpr 10 (.Var "x") = .ok pc ∧
      Lab2.visitStmts 10 [] = .ok pb ∧
      (Lab2.Py.While (.Name "x" .Load) [] []) = .While pc pb [] ∧
      ∀ tgt iter body orelse,
        (Lab2.Py.While (.Name "x" .Load) [] []) ≠ .For tgt iter body orelse :=
  claim_C5 10 (.Var "x") [] (.While (.Name "x" .Load) [] []) rfl

/-- C6: the operator dictionary of `visit_BinaryOp` contains exactly
`+ - * /` mapped 1:1 to `Add/Sub/Mult/Div`; lowering a `BinaryOp` with any
operator outside this closed set fails (with the `KeyError` of the
dictionary lookup once the left operand has been visited), and an in-set
operator lowers to the corresponding target binary expression. -/
theorem claim_C6 :
    (Lab2.opsMap "+" = some .Add ∧ Lab2.opsMap "-" = some .Sub ∧
     Lab2.opsMap "*" = some .Mult ∧ Lab2.opsMap "/" = some .Div) ∧
    (∀ op : String, (Lab2.opsMap op).isSome →
        op = "+" ∨ op = "-" ∨ op = "*" ∨ op = "/") ∧
    (∀ (fuel : Nat) (l r : Lab2.Expr) (op : String), Lab2.opsMap op = none →
        ∃ e, Lab2.visitExpr (fuel + 1) (.BinaryOp l op r) = .error e) ∧
    (∀ (fuel : Nat) (l r : Lab2.Expr) (op : String) (pl : Lab2.Py),
        Lab2.visitExpr fuel l = .ok pl → Lab2.opsMap op = none →
        Lab2.visitExpr (fuel + 1) (.BinaryOp l op r) = .error (.keyError op)) ∧
    (∀ (fuel : Nat) (l r : Lab2.Expr) (op : String) (pl o pr),
        Lab2.visitExpr fuel l = .ok pl → Lab2.opsMap op = some o →
        Lab2.visitExpr fuel r = .ok pr →
        Lab2.visitExpr (fuel + 1) (.BinaryOp l op r) = .ok (.BinOp pl o pr)) := by
  refine ⟨⟨rfl, rfl, rfl, rfl⟩, ?_, ?_, ?_, ?_⟩
  · intro op h
    simp only [Lab2.opsMap] at h
    split_ifs at h with h1 h2 h3 h4
    · exact Or.inl h1
    · exact Or.inr (Or.inl h2)
    · exact Or.inr (Or.inr (Or.inl h3))
    · exact Or.inr (Or.inr (Or.inr h4))
    · simp at h
  · intro fuel l r op hop
    cases hl : Lab2.visitExpr fuel l with
    | error e => exact ⟨e, by simp [Lab2.visitExpr, hl]⟩
    | ok pl => exact ⟨.keyError op, by simp [Lab2.visitExpr, hl, hop]⟩
  · intro fuel l r op pl hl hop
    simp [Lab2.visitExpr, hl, hop]
  · intro fuel l r op pl o pr hl hop hr
    simp [Lab2.visitExpr, hl, hop, hr]

/-- C6 witness: the statement instantiated at `%` (out of set) and `+`. -/
theorem claim_C6_witness :
    ("+" = "+" ∨ "+" = "-" ∨ "+" = "*" ∨ "+" = "/") ∧
    (∃ e, Lab2.visitExpr 2 (.BinaryOp (.Var "x") "%" (.Num 1)) = .error e) ∧
    Lab2.visitExpr 2 (.BinaryOp (.Var "x") "%" (.Num 1)) = .error (.keyError "%") ∧
    Lab2.visitExpr 2 (.BinaryOp (.Var "x") "+" (.Num 1))
      = .ok (.BinOp (.Name "x" .Load) .Add (.Constant 1)) :=
  ⟨claim_C6.2.1 "+" (by decide),
   claim_C6.2.2.1 1 (.Var "x") (.Num 1) "%" (by decide),
   claim_C6.2.2.2.1 1 (.Var "x") (.Num 1) "%" (.Name "x" .Load) rfl (by decide),
   claim_C6.2.2.2.2 1 (.Var "x") (.Num 1) "+" (.Name "x" .Load) .Add (.Constant 1)
     rfl rfl rfl⟩

/-- C4 counterexample: a truncated (empty) token stream makes `parse_func`
fail with the bare `IndexError` of `self.cur()` (no expected kind, no actual
token), and a statement or a term starting with `+` / `=` makes
`parse_stmt` / `parse_term` raise `SyntaxError(tok)` carrying only the
actual token, not the expected kind. -/
theorem claim_C4_cex :
    Lab2.parseFunc 10 ⟨[], 0⟩ = .error .indexError ∧
    Lab2.parseStmt 10 ⟨[⟨"PLUS", "+"⟩], 0⟩ = .error (.unexpected ⟨"PLUS", "+"⟩) ∧
    Lab2.parseTerm 10 ⟨[⟨"EQ", "="⟩], 0⟩ = .error (.unexpected ⟨"EQ", "="⟩) :=
  ⟨rfl, rfl, rfl⟩

/-- C4 (amended): parsing is all-or-nothing (`Except` returns either a value
or an error, never a partial AST), and the error contents depend on the
failure site: a kind mismatch detected by `eat` records both the expected
kind and the actual token; the unexpected-token failures of
`parse_stmt`/`parse_term` record only the actual token; reading past the end
of a truncated stream fails with a bare index error. -/
theorem claim_C4_thm :
    (∀ (s : Lab2.PState) (typ : String) (t : Lab2.Token),
        Lab2.cur s = some t → t.type ≠ typ →
        Lab2.eat s typ = .error (.expected typ t)) ∧
    (∀ (s : Lab2.PState) (typ : String), Lab2.cur s = none →
        Lab2.eat s typ = .error .indexError) ∧
    (∀ (fuel : Nat) (s : Lab2.PState) (t : Lab2.Token), Lab2.cur s = some t →
        t.type ≠ "RETURN" → t.type ≠ "IF" → t.type ≠ "FOR" → t.type ≠ "IDENT" →
        Lab2.parseStmt (fuel + 1) s = .error (.unexpected t)) ∧
    (∀ (fuel : Nat) (s : Lab2.PState) (t : Lab2.Token), Lab2.cur s = some t →
        t.type ≠ "NUMBER" → t.type ≠ "IDENT" →
        Lab2.parseTerm (fuel + 1) s = .error (.unexpected t)) := by
  refine ⟨?_, ?_, ?_, ?_⟩
  · intro s typ t hc hne
    simp [Lab2.eat, hc, hne]
  · intro s typ hc
    simp [Lab2.eat, hc]
  · intro fuel s t hc h1 h2 h3 h4
    simp [Lab2.parseStmt, hc, h1, h2, h3, h4]
  · intro fuel s t hc h1 h2
    simp [Lab2.parseTerm, hc, h1, h2]

/-- C4 witness: the amended statement at concrete inputs. -/
theorem claim_C4_witness :
    Lab2.eat ⟨[⟨"NUMBER", "5"⟩], 0⟩ "IDENT"
      = .error (.expected "IDENT" ⟨"NUMBER", "5"⟩) ∧
    Lab2.eat ⟨[], 0⟩ "FUNC" = .error .indexError ∧
    Lab2.parseStmt 5 ⟨[⟨"EQ", "="⟩], 0⟩ = .error (.unexpected ⟨"EQ", "="⟩) ∧
    Lab2.parseTerm 5 ⟨[⟨"LBRACE", "\x7b"⟩], 0⟩
      = .error (.unexpected ⟨"LBRACE", "\x7b"⟩) :=
  ⟨claim_C4_thm.1 ⟨[⟨"NUMBER", "5"⟩], 0⟩ "IDENT" ⟨"NUMBER", "5"⟩ rfl (by decide),
   claim_C4_thm.2.1 ⟨[], 0⟩ "FUNC" rfl,
   claim_C4_thm.2.2.1 4 ⟨[⟨"EQ", "="⟩], 0⟩ ⟨"EQ", "="⟩ rfl (by decide) (by decide)
     (by decide) (by decide),
   claim_C4_thm.2.2.2 4 ⟨[⟨"LBRACE", "\x7b"⟩], 0⟩ ⟨"LBRACE", "\x7b"⟩ rfl (by decide)
     (by decide)⟩

/-- C9: the final reduction `GetAnwer` computes, for each symbol `A-D`, the
`np.median` and `np.std` of the five per-file `median` values taken from the
concatenated per-file summaries — median-of-medians, never a re-aggregation
of the raw `value` data (which `GetAnwer` is not even given). -/
theorem claim_C9 :
    ∀ (npmedian npstd : List ℚ → ℚ) (t1 t2 t3 t4 t5 : List Lab1.DataRow),
      Lab1.GetAnwer npmedian npstd (Lab1.Task npmedian npstd t1)
          (Lab1.Task npmedian npstd t2) (Lab1.Task npmedian npstd t3)
          (Lab1.Task npmedian npstd t4) (Lab1.Task npmedian npstd t5)
        = ["A", "B", "C", "D"].map fun i =>
            (i,
             npmedian [Lab1.fileMedian npmedian t1 i, Lab1.fileMedian npmedian t2 i,
                       Lab1.fileMedian npmedian t3 i, Lab1.fileMedian npmedian t4 i,
                       Lab1.fileMedian npmedian t5 i],
             npstd [Lab1.fileMedian npmedian t1 i, Lab1.fileMedian npmedian t2 i,
                    Lab1.fileMedian npmedian t3 i, Lab1.fileMedian npmedian t4 i,
                    Lab1.fileMedian npmedian t5 i]) :=
  fun _ _ _ _ _ _ _ => rfl

/-- C10: `tokenize` is a total function producing a finite token sequence —
at most one token per input character, for every input string — and a
position where no pattern matches contributes no token: the scan silently
moves past it instead of failing. -/
theorem claim_C10 :
    (∀ code : String, (Lab2.tokenize code).length ≤ code.length) ∧
    (∀ fuel prev c rest, Lab2.tryMatch prev (c :: rest) = none →
      Lab2.tokenizeAux (fuel + 1) prev (c :: rest)
        = Lab2.tokenizeAux fuel (some c) rest) :=
  ⟨fun code => Lab2.tokenizeAux_length_le (code.length + 1) none code.toList,
   Lab2.tokenizeAux_skip⟩

/-- C10 witness: the statement at concrete inputs. -/
theorem claim_C10_witness :
    (Lab2.tokenize "a+b").length ≤ ("a+b" : String).length ∧
    Lab2.tokenizeAux 2 none ['@'] = Lab2.tokenizeAux 1 (some '@') [] :=
  ⟨claim_C10.1 "a+b", claim_C10.2 1 none '@' [] (by decide)⟩

/-- C7: in `parse_stmt`'s `if` production, once `if EXPR { block }` has been
consumed, the built node's `otherwise` is `none` exactly when the next token
is not `ELSE` (i.e. the source had no `else` clause); and lowering an `If`
whose `otherwise` is `none` produces a conditional with an explicitly empty
alternate body `[]`, not an omitted clause. -/
theorem claim_C7 :
    (∀ (fuel : Nat) (s : Lab2.PState) (t : Lab2.Token) (c : Lab2.Expr)
        (s1 s2 : Lab2.PState) (thn : List Lab2.Stmt) (s3 s4 : Lab2.PState)
        (t2 : Lab2.Token),
      Lab2.cur s = some t → t.type = "IF" →
      Lab2.parseExpr fuel (Lab2.advance s) = .ok (c, s1) →
      Lab2.eat s1 "LBRACE" = .ok s2 →
      Lab2.parseBlock fuel s2 = .ok (thn, s3) →
      Lab2.eat s3 "RBRACE" = .ok s4 →
      Lab2.cur s4 = some t2 →
      (t2.type ≠ "ELSE" →
          Lab2.parseStmt (fuel + 1) s = .ok (.If c thn none, s4)) ∧
      (t2.type = "ELSE" →
          ∀ (r : Lab2.Stmt) (s' : Lab2.PState),
            Lab2.parseStmt (fuel + 1) s = .ok (r, s') →
            ∃ oth, r = .If c thn (some oth))) ∧
    (∀ (fuel : Nat) (c : Lab2.Expr) (thn : List Lab2.Stmt) (pc : Lab2.Py)
        (pt : List Lab2.Py),
      Lab2.visitExpr fuel c = .ok pc → Lab2.visitStmts fuel thn = .ok pt →
      Lab2.visitStmt (fuel + 1) (.If c thn none) = .ok (.If pc pt [])) := by
  constructor
  · intro fuel s t c s1 s2 thn s3 s4 t2 hcur ht hpe hlb hpb hrb hcur4
    have heat : Lab2.eat s "IF" = .ok (Lab2.advance s) := by
      simp [Lab2.eat, hcur, ht]
    constructor
    · intro hne
      simp [Lab2.parseStmt, hcur, ht, heat, hpe, hlb, hpb, hrb, hcur4, hne]
    · intro he r s' hps
      cases h6 : Lab2.eat (Lab2.advance s4) "LBRACE" with
      | error e =>
        simp [Lab2.parseStmt, hcur, ht, heat, hpe, hlb, hpb, hrb, hcur4, he, h6] at hps
      | ok s6 =>
        cases h7 : Lab2.parseBlock fuel s6 with
        | error e =>
          simp [Lab2.parseStmt, hcur, ht, heat, hpe, hlb, hpb, hrb, hcur4, he, h6,
            h7] at hps
        | ok p =>
          obtain ⟨oth, s7⟩ := p
          cases h8 : Lab2.eat s7 "RBRACE" with
          | error e =>
            simp [Lab2.parseStmt, hcur, ht, heat, hpe, hlb, hpb, hrb, hcur4, he, h6,
              h7, h8] at hps
          | ok s8 =>
            simp [Lab2.parseStmt, hcur, ht, heat, hpe, hlb, hpb, hrb, hcur4, he, h6,
              h7, h8] at hps
            exact ⟨oth, hps.1.symm⟩
  · intro fuel c thn pc pt hc ht
    simp [Lab2.visitStmt, hc, ht]

/-- C7 witness: the statement at the concrete token streams of
`if a { }` (no else) and `if a { } else { }`, and at lowering
`If(Var "a", [], None)`. -/
theorem claim_C7_witness :
    Lab2.parseStmt 11 ⟨ifToks, 0⟩ = .ok (.If (.Var "a") [] none, ⟨ifToks, 4⟩) ∧
    (∃ oth, Lab2.Stmt.If (.Var "a") [] (some []) = .If (.Var "a") [] (some oth)) ∧
    Lab2.visitStmt 11 (.If (.Var "a") [] none) = .ok (.If (.Name "a" .Load) [] []) :=
  ⟨(claim_C7.1 10 ⟨ifToks, 0⟩ ⟨"IF", "if"⟩ (.Var "a") ⟨ifToks, 2⟩ ⟨ifToks, 3⟩ []
      ⟨ifToks, 3⟩ ⟨ifToks, 4⟩ ⟨"RBRACE", "\x7d"⟩ rfl rfl rfl rfl rfl rfl rfl).1
    (by decide),
   (claim_C7.1 10 ⟨elseToks, 0⟩ ⟨"IF", "if"⟩ (.Var "a") ⟨elseToks, 2⟩ ⟨elseToks, 3⟩ []
      ⟨elseToks, 3⟩ ⟨elseToks, 4⟩ ⟨"ELSE", "else"⟩ rfl rfl rfl rfl rfl rfl rfl).2
    rfl (.If (.Var "a") [] (some [])) ⟨elseToks, 7⟩ rfl,
   claim_C7.2 10 (.Var "a") [] (.Name "a" .Load) [] rfl rfl⟩

/-- `self.cur()` is the head of the not-yet-consumed suffix of the stream. -/
theorem cur_drop (toks : List Lab2.Token) (pos : Nat) :
    Lab2.cur ⟨toks, pos⟩ = (toks.drop pos).head? := by
  simp [Lab2.cur, List.head?_drop, List.get?_eq_getElem?]

/-- Unfolding `paramEnc` once, for each of the four annotation/comma
combinations of the head entry. -/
theorem paramEnc_cons_tt (nm : String) (t : List (String × Bool × Bool)) :
    paramEnc ((nm, true, true) :: t)
      = Lab2.Token.mk "IDENT" nm :: Lab2.Token.mk "INT" "int"
          :: Lab2.Token.mk "COMMA" "," :: paramEnc t := rfl

/-- Unfolding `paramEnc` once: annotated, no comma. -/
theorem paramEnc_cons_tf (nm : String) (t : List (String × Bool × Bool)) :
    paramEnc ((nm, true, false) :: t)
      = Lab2.Token.mk "IDENT" nm :: Lab2.Token.mk "INT" "int" :: paramEnc t := rfl

/-- Unfolding `paramEnc` once: unannotated, with comma. -/
theorem paramEnc_cons_ft (nm : String) (t : List (String × Bool × Bool)) :
    paramEnc ((nm, false, true) :: t)
      = Lab2.Token.mk "IDENT" nm :: Lab2.Token.mk "COMMA" "," :: paramEnc t := rfl

/-- Unfolding `paramEnc` once: unannotated, no comma. -/
theorem paramEnc_cons_ff (nm : String) (t : List (String × Bool × Bool)) :
    paramEnc ((nm, false, false) :: t)
      = Lab2.Token.mk "IDENT" nm :: paramEnc t := rfl

/-- The token that follows a parameter entry with no annotation or no comma
(the next entry's identifier or the closing parenthesis) is never `INT` or
`COMMA`, so both optional eats of the loop fall through. -/
theorem paramEnc_head (tail : List (String × Bool × Bool)) (rest : List Lab2.Token) :
    ∃ t, (paramEnc tail ++ Lab2.Token.mk "RPAREN" ")" :: rest).head? = some t ∧
      t.type ≠ "INT" ∧ t.type ≠ "COMMA" := by
  cases tail with
  | nil => exact ⟨⟨"RPAREN", ")"⟩, rfl, by decide, by decide⟩
  | cons p ps => exact ⟨⟨"IDENT", p.1⟩, rfl, by simp, by simp⟩

/-- C8 (amended): the parameter loop of `parse_func` accepts `IDENT [int]`
pairs each followed by an *optional* `,` — every per-pair combination of
present/absent `int` annotation and present/absent comma is accepted (so
comma-separated lists are accepted, but so are comma-less and
trailing-comma lists); the annotation is recognized and discarded, `params`
is exactly the ordered sequence of parameter identifiers, and zero
parameters yield the empty sequence. -/
theorem claim_C8_thm :
    ∀ (ps : List (String × Bool × Bool)) (toks : List Lab2.Token)
      (pos fuel : Nat) (rest : List Lab2.Token),
      toks.drop pos = paramEnc ps ++ Lab2.Token.mk "RPAREN" ")" :: rest →
      Lab2.parseParams (ps.length + fuel + 1) ⟨toks, pos⟩
        = .ok (ps.map (fun p => p.1), ⟨toks, pos + (paramEnc ps).length⟩) := by
  intro ps
  induction ps with
  | nil =>
    intro toks pos fuel rest h
    have hnil : paramEnc [] = [] := rfl
    rw [hnil] at h
    have hcur : Lab2.cur ⟨toks, pos⟩ = some ⟨"RPAREN", ")"⟩ := by
      rw [cur_drop, h]; rfl
    have hfuel : ([] : List (String × Bool × Bool)).length + fuel + 1 = fuel + 1 := by
      simp
    rw [hfuel]
    simp [Lab2.parseParams, hcur, hnil]
  | cons p tail ih =>
    obtain ⟨nm, ann, com⟩ := p
    intro toks pos fuel rest h
    have hfuel : ((nm, ann, com) :: tail).length + fuel + 1
        = (tail.length + fuel + 1) + 1 := by
      simp [List.length_cons]; omega
    cases ann with
    | true =>
      cases com with
      | true =>
        rw [paramEnc_cons_tt] at h
        simp only [List.cons_append] at h
        have hcur : Lab2.cur ⟨toks, pos⟩ = some ⟨"IDENT", nm⟩ := by
          rw [cur_drop, h]; rfl
        have heat : Lab2.eat ⟨toks, pos⟩ "IDENT" = .ok ⟨toks, pos + 1⟩ := by
          simp [Lab2.eat, hcur, Lab2.advance]
        have hd1 : toks.drop (pos + 1)
            = Lab2.Token.mk "INT" "int" :: Lab2.Token.mk "COMMA" ","
                :: (paramEnc tail ++ Lab2.Token.mk "RPAREN" ")" :: rest) := by
          rw [← List.tail_drop, h]; rfl
        have hcur1 : Lab2.cur ⟨toks, pos + 1⟩ = some ⟨"INT", "int"⟩ := by
          rw [cur_drop, hd1]; rfl
        have hd2 : toks.drop (pos + 1 + 1)
            = Lab2.Token.mk "COMMA" ","
                :: (paramEnc tail ++ Lab2.Token.mk "RPAREN" ")" :: rest) := by
          rw [← List.tail_drop, hd1]; rfl
        have hcur2 : Lab2.cur ⟨toks, pos + 1 + 1⟩ = some ⟨"COMMA", ","⟩ := by
          rw [cur_drop, hd2]; rfl
        have hd3 : toks.drop (pos + 1 + 1 + 1)
            = paramEnc tail ++ Lab2.Token.mk "RPAREN" ")" :: rest := by
          rw [← List.tail_drop, hd2]; rfl
        have ihx := ih toks (pos + 1 + 1 + 1) fuel rest hd3
        have hpos : pos + (paramEnc ((nm, true, true) :: tail)).length
            = pos + 1 + 1 + 1 + (paramEnc tail).length := by
          rw [paramEnc_cons_tt]; simp [List.length_cons]; omega
        rw [hfuel, hpos]
        set F := tail.length + fuel + 1 with hF
        clear_value F
        simp [Lab2.parseParams, hcur, heat, hcur1, hcur2, Lab2.advance, ihx]
      | false =>
        rw [paramEnc_cons_tf] at h
        simp only [List.cons_append] at h
        have hcur : Lab2.cur ⟨toks, pos⟩ = some ⟨"IDENT", nm⟩ := by
          rw [cur_drop, h]; rfl
        have heat : Lab2.eat ⟨toks, pos⟩ "IDENT" = .ok ⟨toks, pos + 1⟩ := by
          simp [Lab2.eat, hcur, Lab2.advance]
        have hd1 : toks.drop (pos + 1)
            = Lab2.Token.mk "INT" "int"
                :: (paramEnc tail ++ Lab2.Token.mk "RPAREN" ")" :: rest) := by
          rw [← List.tail_drop, h]; rfl
        have hcur1 : Lab2.cur ⟨toks, pos + 1⟩ = some ⟨"INT", "int"⟩ := by
          rw [cur_drop, hd1]; rfl
        have hd2 : toks.drop (pos + 1 + 1)
            = paramEnc tail ++ Lab2.Token.mk "RPAREN" ")" :: rest := by
          rw [← List.tail_drop, hd1]; rfl
        obtain ⟨t2, ht2, ht2i, ht2c⟩ := paramEnc_head tail rest
        have hcur2 : Lab2.cur ⟨toks, pos + 1 + 1⟩ = some t2 := by
          rw [cur_drop, hd2]; exact ht2
        have ihx := ih toks (pos + 1 + 1) fuel rest hd2
        have hpos : pos + (paramEnc ((nm, true, false) :: tail)).length
            = pos + 1 + 1 + (paramEnc tail).length := by
          rw [paramEnc_cons_tf]; simp [List.length_cons]; omega
        rw [hfuel, hpos]
        set F := tail.length + fuel + 1 with hF
        clear_value F
        simp [Lab2.parseParams, hcur, heat, hcur1, hcur2, ht2c, Lab2.advance, ihx]
    | false =>
      cases com with
      | true =>
        rw [paramEnc_cons_ft] at h
        simp only [List.cons_append] at h
        have hcur : Lab2.cur ⟨toks, pos⟩ = some ⟨"IDENT", nm⟩ := by
          rw [cur_drop, h]; rfl
        have heat : Lab2.eat ⟨toks, pos⟩ "IDENT" = .ok ⟨toks, pos + 1⟩ := by
          simp [Lab2.eat, hcur, Lab2.advance]
        have hd1 : toks.drop (pos + 1)
            = Lab2.Token.mk "COMMA" ","
                :: (paramEnc tail ++ Lab2.Token.mk "RPAREN" ")" :: rest) := by
          rw [← List.tail_drop, h]; rfl
        have hcur1 : Lab2.cur ⟨toks, pos + 1⟩ = some ⟨"COMMA", ","⟩ := by
          rw [cur_drop, hd1]; rfl
        have hd2 : toks.drop (pos + 1 + 1)
            = paramEnc tail ++ Lab2.Token.mk "RPAREN" ")" :: rest := by
          rw [← List.tail_drop, hd1]; rfl
        have ihx := ih toks (pos + 1 + 1) fuel rest hd2
        have hpos : pos + (paramEnc ((nm, false, true) :: tail)).length
            = pos + 1 + 1 + (paramEnc tail).length := by
          rw [paramEnc_cons_ft]; simp [List.length_cons]; omega
        rw [hfuel, hpos]
        set F := tail.length + fuel + 1 with hF
        clear_value F
        simp [Lab2.parseParams, hcur, heat, hcur1, Lab2.advance, ihx]
      | false =>
        rw [paramEnc_cons_ff] at h
        simp only [List.cons_append] at h
        have hcur : Lab2.cur ⟨toks, pos⟩ = some ⟨"IDENT", nm⟩ := by
          rw [cur_drop, h]; rfl
        have heat : Lab2.eat ⟨toks, pos⟩ "IDENT" = .ok ⟨toks, pos + 1⟩ := by
          simp [Lab2.eat, hcur, Lab2.advance]
        have hd1 : toks.drop (pos + 1)
            = paramEnc tail ++ Lab2.Token.mk "RPAREN" ")" :: rest := by
          rw [← List.tail_drop, h]; rfl
        obtain ⟨t2, ht2, ht2i, ht2c⟩ := paramEnc_head tail rest
        have hcur1 : Lab2.cur ⟨toks, pos + 1⟩ = some t2 := by
          rw [cur_drop, hd1]; exact ht2
        have ihx := ih toks (pos + 1) fuel rest hd1
        have hpos : pos + (paramEnc ((nm, false, false) :: tail)).length
            = pos + 1 + (paramEnc tail).length := by
          rw [paramEnc_cons_ff]; simp [List.length_cons]; omega
        rw [hfuel, hpos]
        set F := tail.length + fuel + 1 with hF
        clear_value F
        simp [Lab2.parseParams, hcur, heat, hcur1, ht2i, ht2c, Lab2.advance, ihx]

/-- C8 counterexample: `parse_func` also accepts parameter pairs *not*
separated by commas — `func f(a int b int) { }` parses successfully to
`params = ["a","b"]` — so the parameter grammar is not "only comma-separated
lists". -/
theorem claim_C8_cex :
    Lab2.parseFunc 50 ⟨Lab2.tokenize ncSrc, 0⟩
      = .ok (⟨"f", ["a", "b"], []⟩, ⟨Lab2.tokenize ncSrc, 10⟩) := rfl

/-- C8 witness: the amended statement at an annotated comma-terminated
parameter followed by a bare unannotated comma-less one, and at zero
parameters. -/
theorem claim_C8_witness :
    Lab2.parseParams 3
        ⟨paramEnc [("a", true, true), ("b", false, false)]
           ++ [Lab2.Token.mk "RPAREN" ")"], 0⟩
      = .ok (["a", "b"],
          ⟨paramEnc [("a", true, true), ("b", false, false)]
             ++ [Lab2.Token.mk "RPAREN" ")"], 4⟩) ∧
    Lab2.parseParams 1 ⟨[Lab2.Token.mk "RPAREN" ")"], 0⟩
      = .ok ([], ⟨[Lab2.Token.mk "RPAREN" ")"], 0⟩) :=
  ⟨claim_C8_thm [("a", true, true), ("b", false, false)]
      (paramEnc [("a", true, true), ("b", false, false)]
        ++ [Lab2.Token.mk "RPAREN" ")"]) 0 0 [] (by rfl),
   claim_C8_thm [] [Lab2.Token.mk "RPAREN" ")"] 0 0 [] (by rfl)⟩
